import Mathlib

/-!
Verification of the KRR-course example notebooks.

The repository contains two notebooks:
* `examples/3coloring-csp.ipynb` encodes 3-coloring of a fixed 4-vertex graph
  as a CSP for OR-Tools CP-SAT and prints the solver's answer;
* `examples/asp.ipynb` passes a fixed ASP program string to clingo and prints
  whether a model was found.

The development below is a shallow embedding of the two notebooks: the model
object built by the OR-Tools calls is an explicit record threaded through the
cells, the dictionary of decision variables is an association list, the output
of each printing cell is a list of abstract output lines, and the library
calls of each notebook are listed with the role they play.
-/

namespace CSPNotebook

/-- An integer decision variable as created by `model.NewIntVar(lb, ub, name)`. -/
structure IntVar where
  lb : Int
  ub : Int
  name : String
deriving DecidableEq

/-- The CP model state: the variables created so far and the inequality
constraints registered so far (each `model.Add(vars[i] != vars[j])` appends
the pair of variables it relates). -/
structure CpModel where
  intVars : List IntVar
  constraints : List (IntVar × IntVar)
deriving DecidableEq

/-- `model.NewIntVar(lb, ub, name)`: appends a fresh variable with the given
domain bounds and name, returning the new model state and the variable. -/
def CpModel.NewIntVar (m : CpModel) (lb ub : Int) (nm : String) :
    CpModel × IntVar :=
  let v : IntVar := ⟨lb, ub, nm⟩
  (⟨m.intVars ++ [v], m.constraints⟩, v)

/-- `model.Add(a != b)`: registers one inequality constraint. -/
def CpModel.Add (m : CpModel) (c : IntVar × IntVar) : CpModel :=
  ⟨m.intVars, m.constraints ++ [c]⟩

/-- `model = cp_model.CpModel()`. -/
def initialModel : CpModel := ⟨[], []⟩

/-- `num_vertices = 4`. -/
def num_vertices : Nat := 4

/-- `edges = [(1,2),(1,3),(2,3),(2,4),(3,4)]`. -/
def edges : List (Nat × Nat) := [(1, 2), (1, 3), (2, 3), (2, 4), (3, 4)]

/-- The variable-creation loop
`for i in range(1, num_vertices+1): vars[i] = model.NewIntVar(1, 3, "x{}".format(i))`,
threading the model state and building the `vars` dictionary as an
association list in insertion order. -/
def varCreationLoop :
    List Nat → CpModel → List (Nat × IntVar) → CpModel × List (Nat × IntVar)
  | [], m, vs => (m, vs)
  | i :: rest, m, vs =>
    let r := m.NewIntVar 1 3 ("x" ++ toString i)
    varCreationLoop rest r.1 (vs ++ [(i, r.2)])

/-- The state after the variable-creation cell; `range(1, num_vertices+1)`
is `List.range' 1 num_vertices`. -/
def afterVars : CpModel × List (Nat × IntVar) :=
  varCreationLoop (List.range' 1 num_vertices) initialModel []

/-- The model after the variable-creation cell. -/
def modelAfterVars : CpModel := afterVars.1

/-- The `vars` dictionary after the variable-creation cell. -/
def vars : List (Nat × IntVar) := afterVars.2

/-- The constraint loop `for (i,j) in edges: model.Add(vars[i] != vars[j])`.
The dictionary lookups `vars[i]`, `vars[j]` raise `KeyError` in Python when
the key is absent, so the loop is embedded as a fallible computation. -/
def constraintLoop : List (Nat × Nat) → CpModel → Option CpModel
  | [], m => some m
  | (i, j) :: rest, m =>
    match vars.lookup i, vars.lookup j with
    | some vi, some vj => constraintLoop rest (m.Add (vi, vj))
    | _, _ => none

/-- The (possibly failed) model after the constraint cell. -/
def modelAfterConstraints : Option CpModel := constraintLoop edges modelAfterVars

/-- The model after the constraint cell (the loop succeeds on this input,
as proved below, so the default is never used). -/
def theModel : CpModel := modelAfterConstraints.getD modelAfterVars

/-- The variable the notebook creates for vertex `i`: domain bounds 1 and 3,
name `"x{}".format(i)`. -/
def xVar (i : Nat) : IntVar := ⟨1, 3, "x" ++ toString i⟩

theorem theModel_constraints_eq :
    theModel.constraints = edges.map (fun p => (xVar p.1, xVar p.2)) := by
  decide

theorem vars_eq :
    vars = [(1, xVar 1), (2, xVar 2), (3, xVar 3), (4, xVar 4)] := by
  decide

/-- An assignment of integer values to the decision variables satisfies all
constraints registered with the model. -/
def satisfiesAll (μ : IntVar → Int) (m : CpModel) : Prop :=
  ∀ c ∈ m.constraints, μ c.1 ≠ μ c.2

/-- C3: for every vertex index `i` from 1 to `num_vertices` the notebook
creates exactly one integer variable with domain bounds 1 and 3 through
`model.NewIntVar` and stores it in the dictionary under key `i`; the
dictionary has no other keys and the model has no other variables. -/
theorem c3_variable_creation :
    vars = [(1, xVar 1), (2, xVar 2), (3, xVar 3), (4, xVar 4)]
      ∧ vars.map Prod.fst = List.range' 1 num_vertices
      ∧ modelAfterVars.intVars = [xVar 1, xVar 2, xVar 3, xVar 4]
      ∧ ∀ pr ∈ vars, pr.2.lb = 1 ∧ pr.2.ub = 3 := by
  decide

/-- C4: the constraint cell registers, per edge `(i,j)`, exactly one
inequality constraint between the variables for `i` and `j`, in edge-list
order, and these are the only constraints in the model. -/
theorem c4_constraints_match_edges :
    theModel.constraints = edges.map (fun p => (xVar p.1, xVar p.2))
      ∧ theModel.constraints.length = edges.length := by
  decide

/-- C6: the encoded graph has `num_vertices = 4` and every endpoint in the
edge list lies between 1 and 4 inclusive. -/
theorem c6_four_vertex_graph :
    num_vertices = 4
      ∧ ∀ p ∈ edges, 1 ≤ p.1 ∧ p.1 ≤ 4 ∧ 1 ≤ p.2 ∧ p.2 ≤ 4 := by
  decide

/-- C10: every edge endpoint is a key of the `vars` dictionary (it lies in
the range 1 to `num_vertices` over which variables were created), so every
lookup in the constraint loop succeeds and the loop completes. -/
theorem c10_lookups_succeed :
    (∀ p ∈ edges,
        1 ≤ p.1 ∧ p.1 ≤ num_vertices ∧ 1 ≤ p.2 ∧ p.2 ≤ num_vertices
          ∧ (vars.lookup p.1).isSome ∧ (vars.lookup p.2).isSome)
      ∧ modelAfterConstraints.isSome := by
  decide

/-- C1: an assignment of values from the set 1, 2, 3 to the variables
`x_1, ..., x_4` satisfies all constraints registered with the model if and
only if it is a proper 3-coloring of the encoded graph: for every pair
`(i,j)` in the edge list, the values assigned to `x_i` and `x_j` differ. -/
theorem c1_satisfies_iff_proper_coloring (μ : IntVar → Int)
    (_hdom : ∀ i, 1 ≤ i → i ≤ num_vertices →
      μ (xVar i) = 1 ∨ μ (xVar i) = 2 ∨ μ (xVar i) = 3) :
    satisfiesAll μ theModel ↔ ∀ p ∈ edges, μ (xVar p.1) ≠ μ (xVar p.2) := by
  unfold satisfiesAll
  rw [theModel_constraints_eq]
  constructor
  · intro h p hp
    exact h (xVar p.1, xVar p.2) (List.mem_map_of_mem _ hp)
  · intro h c hc
    rcases List.mem_map.mp hc with ⟨p, hp, rfl⟩
    exact h p hp

theorem c1_satisfies_iff_proper_coloring_witness :
    (∀ i, 1 ≤ i → i ≤ num_vertices →
        (fun v : IntVar => v.lb) (xVar i) = 1
          ∨ (fun v : IntVar => v.lb) (xVar i) = 2
          ∨ (fun v : IntVar => v.lb) (xVar i) = 3)
      ∧ (satisfiesAll (fun v : IntVar => v.lb) theModel ↔
          ∀ p ∈ edges,
            (fun v : IntVar => v.lb) (xVar p.1)
              ≠ (fun v : IntVar => v.lb) (xVar p.2)) :=
  ⟨by decide, c1_satisfies_iff_proper_coloring (fun v : IntVar => v.lb)
    (by decide)⟩

/-- The solver status values of `cp_model`. -/
inductive CpSolverStatus where
  | UNKNOWN
  | MODEL_INVALID
  | FEASIBLE
  | INFEASIBLE
  | OPTIMAL
deriving DecidableEq

/-- One printed line of the solve-and-print cell. -/
inductive OutputLine where
  | colorableHeader
  | vertexColor (i : Nat) (c : Int)
  | notColorable
deriving DecidableEq

/-- The variable the printing and constraint cells read as `vars[i]`. -/
def xVarOf (i : Nat) : IntVar := (vars.lookup i).getD ⟨0, 0, ""⟩

/-- The solve-and-print cell: given the status returned by
`solver.Solve(model)` and the `solver.Value` function, the cell prints the
header and one line per vertex (in the order of `range(1, num_vertices+1)`)
when the status equals `cp_model.FEASIBLE`, and otherwise prints that the
graph is not 3-colorable. -/
def printCell (answer : CpSolverStatus) (value : IntVar → Int) :
    List OutputLine :=
  if answer = CpSolverStatus.FEASIBLE then
    OutputLine.colorableHeader ::
      (List.range' 1 num_vertices).map
        (fun i => OutputLine.vertexColor i (value (xVarOf i)))
  else
    [OutputLine.notColorable]

/-- C2: the per-vertex coloring is printed only when the returned status is
exactly `cp_model.FEASIBLE`; every other status, `cp_model.OPTIMAL`
included, prints only the line that the graph is not 3-colorable. -/
theorem c2_prints_only_on_feasible (answer : CpSolverStatus)
    (value : IntVar → Int) :
    ((∃ i c, OutputLine.vertexColor i c ∈ printCell answer value) ↔
        answer = CpSolverStatus.FEASIBLE)
      ∧ printCell CpSolverStatus.OPTIMAL value = [OutputLine.notColorable]
      ∧ (answer ≠ CpSolverStatus.FEASIBLE →
          printCell answer value = [OutputLine.notColorable]) := by
  refine ⟨⟨fun h => ?_, fun h => ?_⟩, by simp [printCell], fun h => ?_⟩
  · by_contra hne
    rcases h with ⟨i, c, hmem⟩
    simp [printCell, hne] at hmem
  · subst h
    refine ⟨1, value (xVarOf 1), ?_⟩
    have hpc : printCell CpSolverStatus.FEASIBLE value =
        [OutputLine.colorableHeader,
          OutputLine.vertexColor 1 (value (xVarOf 1)),
          OutputLine.vertexColor 2 (value (xVarOf 2)),
          OutputLine.vertexColor 3 (value (xVarOf 3)),
          OutputLine.vertexColor 4 (value (xVarOf 4))] := rfl
    rw [hpc]
    simp
  · simp [printCell, h]

theorem c2_prints_only_on_feasible_witness :
    ((∃ i c,
        OutputLine.vertexColor i c ∈
          printCell CpSolverStatus.OPTIMAL (fun v : IntVar => v.lb)) ↔
        CpSolverStatus.OPTIMAL = CpSolverStatus.FEASIBLE)
      ∧ printCell CpSolverStatus.OPTIMAL (fun v : IntVar => v.lb)
          = [OutputLine.notColorable]
      ∧ (CpSolverStatus.OPTIMAL ≠ CpSolverStatus.FEASIBLE →
          printCell CpSolverStatus.OPTIMAL (fun v : IntVar => v.lb)
            = [OutputLine.notColorable]) :=
  c2_prints_only_on_feasible CpSolverStatus.OPTIMAL (fun v : IntVar => v.lb)

/-- C7: when the solver reports `FEASIBLE`, the printing loop visits the
vertex indices 1, 2, 3, 4 (that is, 1 through `num_vertices` in increasing
order) and prints exactly one line per vertex with the value the solver
assigned to that vertex's variable. -/
theorem c7_printing_loop (value : IntVar → Int) :
    printCell CpSolverStatus.FEASIBLE value =
      [OutputLine.colorableHeader,
        OutputLine.vertexColor 1 (value (xVarOf 1)),
        OutputLine.vertexColor 2 (value (xVarOf 2)),
        OutputLine.vertexColor 3 (value (xVarOf 3)),
        OutputLine.vertexColor 4 (value (xVarOf 4))] := by
  rfl

theorem c7_printing_loop_witness :
    printCell CpSolverStatus.FEASIBLE (fun v : IntVar => v.ub) =
      [OutputLine.colorableHeader,
        OutputLine.vertexColor 1 ((xVarOf 1).ub),
        OutputLine.vertexColor 2 ((xVarOf 2).ub),
        OutputLine.vertexColor 3 ((xVarOf 3).ub),
        OutputLine.vertexColor 4 ((xVarOf 4).ub)] :=
  c7_printing_loop (fun v : IntVar => v.ub)

end CSPNotebook

namespace ASPNotebook

/-- The string constant `asp_program` of the ASP notebook, verbatim. -/
def asp_program : String :=
  "#const k=3.\nnumber(1..k).\nleft(X) :- not right(X), number(X).\nright(X) :- not left(X), number(X).\n:- right(2)."

/-- One call to `control.add(name, params, program)`. -/
structure AddCall where
  name : String
  params : List String
  program : String
deriving DecidableEq

/-- The `control.add` calls the notebook makes:
exactly `control.add("base", [], asp_program)`. -/
def addCalls : List AddCall := [⟨"base", [], asp_program⟩]

/-- C5: the notebook's only `control.add` call passes the string constant
`asp_program` unchanged as the program argument, and there is exactly one
such call, loading one fixed string program. -/
theorem c5_program_passed_verbatim :
    (∀ c ∈ addCalls, c.program = asp_program) ∧ addCalls.length = 1 := by
  decide

/-- The output line of the satisfiability-check cell. -/
inductive AspOutput where
  | foundModel
  | didNotFindModel
deriving DecidableEq

/-- The satisfiability-check cell: `answer.satisfiable` is `True`, `False`
or `None` (modelled as `Option Bool`), and the cell prints the
found-a-model line exactly when `answer.satisfiable == True`. -/
def satisfiableCheckCell (s : Option Bool) : AspOutput :=
  if s = some true then AspOutput.foundModel else AspOutput.didNotFindModel

/-- C9: the notebook prints the found-a-model line if and only if the
`satisfiable` attribute of the solve result equals `True`; for `False` and
for `None` (satisfiability unknown) it prints the did-not-find line. -/
theorem c9_satisfiable_check :
    ∀ s : Option Bool,
      (satisfiableCheckCell s = AspOutput.foundModel ↔ s = some true)
        ∧ satisfiableCheckCell (some false) = AspOutput.didNotFindModel
        ∧ satisfiableCheckCell none = AspOutput.didNotFindModel := by
  decide

theorem c9_satisfiable_check_witness :
    (satisfiableCheckCell (some true) = AspOutput.foundModel ↔
        (some true : Option Bool) = some true)
      ∧ satisfiableCheckCell (some false) = AspOutput.didNotFindModel
      ∧ satisfiableCheckCell none = AspOutput.didNotFindModel :=
  c9_satisfiable_check (some true)

end ASPNotebook

/-- The role a library call plays in a notebook, following the notebooks'
own structure: building the problem instance, invoking the solver, or
reading the returned solution for printing. -/
inductive CallRole where
  | constructInput
  | solverEntry
  | printResult
deriving DecidableEq

/-- One external library entry point invoked by a notebook, with its role. -/
structure LibraryCall where
  entryPoint : String
  role : CallRole
deriving DecidableEq

/-- The external entry points the CSP notebook invokes, in program order:
`cp_model.CpModel()`, `model.NewIntVar`, `model.Add` build the instance;
`cp_model.CpSolver()` and `solver.Solve` invoke the solver;
`solver.Value` reads the solution inside the printing loop. -/
def cspLibraryCalls : List LibraryCall :=
  [⟨"cp_model.CpModel", CallRole.constructInput⟩,
    ⟨"model.NewIntVar", CallRole.constructInput⟩,
    ⟨"model.Add", CallRole.constructInput⟩,
    ⟨"cp_model.CpSolver", CallRole.solverEntry⟩,
    ⟨"solver.Solve", CallRole.solverEntry⟩,
    ⟨"solver.Value", CallRole.printResult⟩]

/-- The external entry points the ASP notebook invokes, in program order:
`clingo.Control()`, `control.add` and `control.ground` load the fixed
program into the solver; setting `control.configuration.solve.models` and
calling `control.solve` invoke the solver; `model.symbols` reads the model
inside the `on_model` printing callback. -/
def aspLibraryCalls : List LibraryCall :=
  [⟨"clingo.Control", CallRole.constructInput⟩,
    ⟨"control.add", CallRole.constructInput⟩,
    ⟨"control.ground", CallRole.constructInput⟩,
    ⟨"control.configuration.solve.models", CallRole.solverEntry⟩,
    ⟨"control.solve", CallRole.solverEntry⟩,
    ⟨"model.symbols", CallRole.printResult⟩]

/-- The distinct entry points of a notebook that are neither input
construction nor result printing. -/
def solverEntryPoints (calls : List LibraryCall) : List String :=
  ((calls.filter fun c => c.role == CallRole.solverEntry).map
    LibraryCall.entryPoint).dedup

/-- C8: each notebook calls at most two distinct external library entry
points beyond constructing its small input and printing results. -/
theorem c8_at_most_two_entry_points :
    (solverEntryPoints cspLibraryCalls).length ≤ 2
      ∧ (solverEntryPoints aspLibraryCalls).length ≤ 2 := by
  decide

